import Mathlib

/-!
Verification of the boltpmapp project-management application.

The development shallowly embeds the parts of the code that carry the
behavioural contracts of interest: the routing guard (App.tsx), the
create-project submission sequence (NewProject, part_003 variant, the one
with the compensating delete), the CSV-to-activity import
(NewProject.tsx), the file upload and delete sequences (Files page,
part_005), and the edit-project submission sequence (EditProject.tsx).

Remote tables and the storage bucket are modelled as explicit state, and
each remote call whose error the code branches on gets a success flag in
an environment record; a call whose result the code ignores has its
effect applied unconditionally, since the code has a single control path
through it.  Numbers that JavaScript may fail to coerce are modelled as
`Option Rat`, with `none` standing for NaN.
-/

deriving instance DecidableEq for Except

namespace PMApp

/-! ## Routing guard (App.tsx) -/

/-- The routed views of the application (App.tsx, the Routes block). -/
inductive Route where
  | login
  | signup
  | dashboard
  | projectsNew
  | projectList
  | projectDetail (id : Nat)
  | projectEdit (id : Nat)
  | adminUsers
  | notificationsView
  | projectFiles (id : Nat)
  | reports
  | profile
  | adminSettings
  | root
deriving DecidableEq, Repr

/-- A signed-in user as seen by the auth context; the `approved` flag and
`role` come from the users table row of the data model. -/
structure AppUser where
  id : Nat
  role : String
  approved : Bool
deriving DecidableEq, Repr

/-- Auth state exposed by the auth context: loading until the first
session check resolves, then either no session or a signed-in user. -/
inductive AuthState where
  | loading
  | unauthenticated
  | authenticated (user : AppUser)
deriving DecidableEq, Repr

/-- What resolving a route renders. -/
inductive RenderResult where
  | loadingIndicator
  | redirect (target : Route)
  | page (r : Route)
deriving DecidableEq, Repr

/-- AuthenticatedLayout (App.tsx lines 23-46): shows a loading screen
while auth is loading, redirects to the login view when there is no
user, and otherwise renders the requested child view.  The approved flag
of the user is never consulted (the check is commented out in the
source). -/
def authenticatedLayout (s : AuthState) (requested : Route) : RenderResult :=
  match s with
  | .loading => .loadingIndicator
  | .unauthenticated => .redirect .login
  | .authenticated _ => .page requested

/-- Whether a route is wrapped in ProtectedRoute in the App.tsx route
table; login and signup are not, and the root route is a bare redirect. -/
def isProtected : Route → Bool
  | .login => false
  | .signup => false
  | .root => false
  | _ => true

/-- Route resolution of App (App.tsx lines 56-85): the login and signup
routes render their pages unconditionally, the root route redirects to
the dashboard, and every other route goes through AuthenticatedLayout. -/
def resolveRoute (s : AuthState) (r : Route) : RenderResult :=
  match r with
  | .login => .page .login
  | .signup => .page .signup
  | .root => .redirect .dashboard
  | r => authenticatedLayout s r

/-! ## CSV-to-activity import (NewProject.tsx, handleCsvUpload) -/

/-- One data row of the parsed CSV, keyed by the headers the handler
reads; a field is `none` when the column is absent (undefined in
JavaScript). -/
structure CsvRow where
  activityName : Option String
  quantity : Option String
  unit : Option String
  rate : Option String
  startDate : Option String
  endDate : Option String
deriving DecidableEq, Repr

/-- The result Papa.parse hands to the complete callback in header mode:
data rows plus the list of parse errors. -/
structure ParseResults where
  data : List CsvRow
  errors : List String
deriving DecidableEq, Repr

/-- An in-form activity value as produced by the CSV mapping. -/
structure ActivityForm where
  name : String
  quantity : Rat
  unit : String
  rate : Rat
  startDate : Option String
  endDate : Option String
deriving DecidableEq, Repr

/-- Mapping of one CSV row (NewProject.tsx lines 142-148).  `pf`
abstracts the JavaScript parseFloat builtin, with `none` for NaN; the
source computes `parseFloat(cell) || 0`, which yields 0 both when the
parse fails and when it parses 0, i.e. `getD 0` on the optional result.
An absent cell parses to NaN as well, hence the `bind`.  Date cells map
empty strings to undefined. -/
def mapCsvRow (pf : String → Option Rat) (r : CsvRow) : ActivityForm :=
  { name := r.activityName.getD ""
    quantity := (r.quantity.bind pf).getD 0
    unit := r.unit.getD ""
    rate := (r.rate.bind pf).getD 0
    startDate := r.startDate.bind (fun s => if s = "" then none else some s)
    endDate := r.endDate.bind (fun s => if s = "" then none else some s) }

/-- Lines 142-149: map every parsed row, then drop the rows whose mapped
name is empty (JavaScript truthiness of the name string). -/
def csvToActivities (pf : String → Option Rat) (rows : List CsvRow) :
    List ActivityForm :=
  (rows.map (mapCsvRow pf)).filter (fun a => a.name != "")

/-- Outcome of the CSV upload handler on the form state. -/
structure CsvOutcome where
  activities : List ActivityForm
  aborted : Bool
deriving DecidableEq, Repr

/-- handleCsvUpload, complete callback (NewProject.tsx lines 131-159):
when the parse reports any errors the import is aborted with one
aggregate failure toast and the form list is untouched; otherwise all
current rows are removed and the mapped rows appended, a wholesale
replacement. -/
def handleCsvUpload (pf : String → Option Rat) (results : ParseResults)
    (current : List ActivityForm) : CsvOutcome :=
  if results.errors.length > 0 then
    { activities := current, aborted := true }
  else
    { activities := [] ++ csvToActivities pf results.data, aborted := false }

/-! ## Create-project submission (NewProject, part_003 onSubmit) -/

namespace NP

/-- The activity values of the validated create-project form; quantity
and rate are nullable numbers after the zod preprocessing. -/
structure ActivityValues where
  name : String
  quantity : Option Rat
  unit : String
  rate : Option Rat
  start_date : Option String
  end_date : Option String
deriving DecidableEq, Repr

/-- The validated values of the whole create-project form. -/
structure FormValues where
  name : String
  start_date : Option String
  end_date : Option String
  vendor : String
  description : String
  activities : List ActivityValues
deriving DecidableEq, Repr

/-- A projects-table row: the insert payload of onSubmit plus the id the
store generates for it. -/
structure ProjectRow where
  id : Nat
  name : String
  start_date : Option String
  end_date : Option String
  vendor : String
  description : String
  created_by : Nat
deriving DecidableEq, Repr

/-- An activities-table row: a form activity tagged with the project id. -/
structure ActivityRow where
  name : String
  quantity : Option Rat
  unit : String
  rate : Option Rat
  start_date : Option String
  end_date : Option String
  project_id : Nat
deriving DecidableEq, Repr

/-- The two tables the submission sequence touches. -/
structure DB where
  projects : List ProjectRow
  activities : List ActivityRow
deriving DecidableEq, Repr

/-- Remote outcomes for one run of the sequence: whether each insert call
succeeds, and the id the store generates for the project row.  The
compensating delete has its result ignored by the code (its promise is
awaited, its error never read), so it carries no flag and its row
removal applies whenever it is issued. -/
structure CreateEnv where
  projectInsertOk : Bool
  activityInsertOk : Bool
  newProjectId : Nat
deriving DecidableEq, Repr

/-- The project-insert payload of onSubmit (part_003 lines 130-141). -/
def mkProjectRow (pid : Nat) (v : FormValues) (userId : Nat) : ProjectRow :=
  { id := pid
    name := v.name
    start_date := v.start_date
    end_date := v.end_date
    vendor := v.vendor
    description := v.description
    created_by := userId }

/-- One element of activitiesToInsert (part_003 lines 150-155). -/
def mkActivityRow (pid : Nat) (a : ActivityValues) : ActivityRow :=
  { name := a.name
    quantity := a.quantity
    unit := a.unit
    rate := a.rate
    start_date := a.start_date
    end_date := a.end_date
    project_id := pid }

/-- onSubmit of the create-project page (part_003 lines 113-188): insert
the project row and obtain its generated id; when the form has any
activities, insert them all tagged with that id; if that insert fails,
delete the projects rows with that id and surface the error; the error
of the delete itself is ignored by the code. -/
def onSubmitCreate (env : CreateEnv) (db : DB) (v : FormValues)
    (userId : Nat) : DB × Except String Nat :=
  if env.projectInsertOk then
    let pid := env.newProjectId
    let db1 : DB :=
      { db with projects := db.projects ++ [mkProjectRow pid v userId] }
    let activitiesToInsert := v.activities.map (mkActivityRow pid)
    if activitiesToInsert.length > 0 then
      if env.activityInsertOk then
        ({ db1 with activities := db1.activities ++ activitiesToInsert },
          .ok pid)
      else
        ({ db1 with projects := db1.projects.filter (fun p => p.id != pid) },
          .error "activities insert failed")
    else
      (db1, .ok pid)
  else
    (db, .error "projects insert failed")

end NP

/-! ## File upload and deletion (Files page, part_005) -/

namespace FS

/-- Storage paths and file names are strings built by concatenation in
the source; they are modelled at the character-list level so that the
template-literal concatenations stay visible. -/
abbrev Chars := List Char

/-- A files-table row as inserted by handleFileUpload (lines 93-105). -/
structure FileRow where
  id : Nat
  name : Chars
  url : Chars
  project_id : Chars
  user_id : Nat
deriving DecidableEq, Repr

/-- The storage bucket (set of blob paths present) and the files table. -/
structure FilesState where
  storage : List Chars
  filesTable : List FileRow
deriving DecidableEq, Repr

/-- Remote outcomes for one run of handleFileUpload: the value of
Date.now().toString() used in the path, the success of the blob upload
and of the metadata insert, and the generated row id.  The compensating
blob removal has its result ignored by the code, so its effect applies
whenever it is issued. -/
structure UploadEnv where
  now : Chars
  uploadOk : Bool
  insertOk : Bool
  newFileId : Nat
deriving DecidableEq, Repr

/-- Line 75: the storage path used for the upload,
projectId/timestamp_filename. -/
def uploadPath (projectId now name : Chars) : Chars :=
  projectId ++ ['/'] ++ now ++ ['_'] ++ name

/-- handleFileUpload (part_005 lines 68-129): upload the blob under
uploadPath; get its public URL (`publicUrlOf` abstracts the URL the
storage service derives from a path); insert the files-table row; if the
insert fails, remove the blob at the same path and surface the error. -/
def handleFileUpload (publicUrlOf : Chars → Chars) (env : UploadEnv)
    (st : FilesState) (projectId selectedFileName : Chars) (userId : Nat) :
    FilesState × Except String Unit :=
  let filePath := uploadPath projectId env.now selectedFileName
  if env.uploadOk then
    let st1 : FilesState := { st with storage := st.storage ++ [filePath] }
    let url := publicUrlOf filePath
    if env.insertOk then
      ({ st1 with filesTable := st1.filesTable ++
          [{ id := env.newFileId, name := selectedFileName, url := url,
             project_id := projectId, user_id := userId }] }, .ok ())
    else
      ({ st1 with storage := st1.storage.filter (fun q => q != filePath) },
        .error "files insert failed")
  else
    (st, .error "storage upload failed")

/-- Remote outcomes for one run of handleDeleteFile: success of the
metadata-row delete and of the blob removal. -/
structure DeleteEnv where
  dbDeleteOk : Bool
  storageRemoveOk : Bool
deriving DecidableEq, Repr

/-- Observable outcome of handleDeleteFile: the final state, whether an
error was surfaced, whether the blob removal was even attempted, and
whether a storage failure was logged to the console. -/
structure DeleteOutcome where
  state : FilesState
  result : Except String Unit
  attemptedRemove : Bool
  loggedStorageError : Bool
deriving DecidableEq, Repr

/-- handleDeleteFile (part_005 lines 131-172): delete the files-table
row first; on failure surface the error and stop.  Then remove the blob
at the given path; a failure there is only logged to the console, the
metadata delete is not rolled back, and the handler still reports
success. -/
def handleDeleteFile (env : DeleteEnv) (st : FilesState) (fileId : Nat)
    (filePathInStorage : Chars) : DeleteOutcome :=
  if env.dbDeleteOk then
    let st1 : FilesState :=
      { st with filesTable := st.filesTable.filter (fun f => f.id != fileId) }
    if env.storageRemoveOk then
      { state :=
          { st1 with storage := st1.storage.filter (fun q => q != filePathInStorage) }
        result := .ok ()
        attemptedRemove := true
        loggedStorageError := false }
    else
      { state := st1
        result := .ok ()
        attemptedRemove := true
        loggedStorageError := true }
  else
    { state := st
      result := .error "files delete failed"
      attemptedRemove := false
      loggedStorageError := false }

/-- Line 231: the path the delete button hands to handleDeleteFile,
reconstructed as bucket-name/projectId/stored-file-name. -/
def deletePathGuess (projectId name : Chars) : Chars :=
  ("project-files/").toList ++ projectId ++ ['/'] ++ name

end FS

/-! ## Edit-project submission (EditProject.tsx, onSubmit) -/

namespace EP

/-- An activity entry of the edit form; quantity and rate are `none`
when the number input holds NaN, and `idField` is the stale row id kept
by rows loaded from the store (set to undefined before re-insert). -/
structure ActivityFormRow where
  idField : Option Nat
  name : String
  quantity : Option Rat
  unit : String
  rate : Option Rat
deriving DecidableEq, Repr

/-- The values of the edit-project form. -/
structure EditFormData where
  name : String
  startDate : String
  endDate : String
  vendor : String
  description : String
  status : String
  completion_percentage : Rat
  activities : List ActivityFormRow
deriving DecidableEq, Repr

/-- A projects-table row with the columns the edit page touches. -/
structure ProjectRow where
  id : Nat
  name : String
  start_date : String
  end_date : String
  vendor : String
  description : String
  status : String
  completion_percentage : Rat
  user_id : Nat
deriving DecidableEq, Repr

/-- An activities-table row; the id is generated by the store on insert. -/
structure ActivityRow where
  id : Nat
  project_id : Nat
  name : String
  quantity : Rat
  unit : String
  rate : Rat
deriving DecidableEq, Repr

/-- The tables the submission touches, plus the id counter the store
uses to generate fresh activity ids. -/
structure DB where
  projects : List ProjectRow
  activities : List ActivityRow
  nextActivityId : Nat
deriving DecidableEq, Repr

/-- Remote outcomes for one run of onSubmit: success of the project
update, of the activities delete, and of the activities insert. -/
structure EditEnv where
  updateOk : Bool
  deleteOk : Bool
  insertOk : Bool
deriving DecidableEq, Repr

/-- The field update of lines 127-139: every listed column is
overwritten from the form; the id and the owning user are untouched. -/
def applyUpdate (v : EditFormData) (p : ProjectRow) : ProjectRow :=
  { p with
    name := v.name
    start_date := v.startDate
    end_date := v.endDate
    vendor := v.vendor
    description := v.description
    status := v.status
    completion_percentage := v.completion_percentage }

/-- One re-inserted activity row (lines 154-162): tagged with the
project id, quantity and rate coerced through Number(x) with 0 replacing
NaN, the stale form id discarded and `idGen` generated by the store. -/
def mkInsertRow (pid idGen : Nat) (a : ActivityFormRow) : ActivityRow :=
  { id := idGen
    project_id := pid
    name := a.name
    quantity := a.quantity.getD 0
    unit := a.unit
    rate := a.rate.getD 0 }

/-- The rows produced by one bulk insert, with ids generated
consecutively from `base`. -/
def assignIds (base pid : Nat) : List ActivityFormRow → List ActivityRow
  | [] => []
  | a :: rest => mkInsertRow pid base a :: assignIds (base + 1) pid rest

/-- onSubmit of the edit page (EditProject.tsx lines 118-185): update
the project row; delete every activities row of the project; when the
form has any activity rows, re-insert them with fresh ids.  Each step
surfaces its failure and stops; no step undoes an earlier one. -/
def onSubmitEdit (env : EditEnv) (db : DB) (pid : Nat) (v : EditFormData) :
    DB × Except String Unit :=
  if env.updateOk then
    let db1 : DB :=
      { db with projects :=
          db.projects.map (fun p => if p.id = pid then applyUpdate v p else p) }
    if env.deleteOk then
      let db2 : DB :=
        { db1 with activities :=
            db1.activities.filter (fun a => a.project_id != pid) }
      if v.activities.length > 0 then
        if env.insertOk then
          ({ db2 with
              activities :=
                db2.activities ++ assignIds db2.nextActivityId pid v.activities
              nextActivityId := db2.nextActivityId + v.activities.length },
            .ok ())
        else
          (db2, .error "activities insert failed")
      else
        (db2, .ok ())
    else
      (db1, .error "activities delete failed")
  else
    (db, .error "projects update failed")

end EP

/-! ## Concrete sample inputs used by the evaluation theorems -/

/-- A sample parseFloat oracle: parses the two digit strings the sample
rows use and fails (NaN) on everything else. -/
def pfSample : String → Option Rat :=
  fun s => if s = "2" then some 2 else if s = "3" then some 3 else none

/-- A CSV row with a name and numeric cells. -/
def csvRowGood : CsvRow :=
  { activityName := some "Dig", quantity := some "2", unit := some "m",
    rate := some "3", startDate := some "", endDate := none }

/-- A CSV row with an empty name cell. -/
def csvRowNoName : CsvRow :=
  { activityName := some "", quantity := some "2", unit := none,
    rate := some "3", startDate := none, endDate := none }

/-- A CSV row whose quantity cell does not parse and whose rate column is
absent. -/
def csvRowBadNum : CsvRow :=
  { activityName := some "Pour", quantity := some "abc", unit := some "m",
    rate := none, startDate := none, endDate := none }

/-- The sample parsed data rows. -/
def csvRowsSample : List CsvRow := [csvRowGood, csvRowNoName, csvRowBadNum]

/-- A parse result without errors. -/
def parseResultsOk : ParseResults := { data := csvRowsSample, errors := [] }

/-- A parse result carrying one parse error. -/
def parseResultsErr : ParseResults :=
  { data := csvRowsSample, errors := ["Too many fields"] }

/-- A sample in-form activity list standing for rows already in the form. -/
def formListSample : List ActivityForm :=
  [{ name := "Old", quantity := 1, unit := "u", rate := 1,
     startDate := none, endDate := none }]

/-- A sample activity of the create form. -/
def npActivitySample : NP.ActivityValues :=
  { name := "Dig", quantity := some 2, unit := "m", rate := some 3,
    start_date := none, end_date := none }

/-- A sample create-project form with one activity row. -/
def npFormSample : NP.FormValues :=
  { name := "Alpha", start_date := none, end_date := none, vendor := "V",
    description := "", activities := [npActivitySample] }

/-- An empty database. -/
def npDbSample : NP.DB := { projects := [], activities := [] }

/-- A run in which the project insert succeeds and the activity insert
fails. -/
def npEnvFail : NP.CreateEnv :=
  { projectInsertOk := true, activityInsertOk := false, newProjectId := 7 }

/-- A run in which both inserts succeed. -/
def npEnvOk : NP.CreateEnv :=
  { projectInsertOk := true, activityInsertOk := true, newProjectId := 7 }

/-- An empty storage-and-table state. -/
def fsStateSample : FS.FilesState := { storage := [], filesTable := [] }

/-- An upload run whose blob upload succeeds and whose metadata insert
fails. -/
def fsUploadEnvFail : FS.UploadEnv :=
  { now := ['1', '2', '3'], uploadOk := true, insertOk := false, newFileId := 1 }

/-- A deletion run whose metadata delete succeeds and whose blob removal
fails. -/
def fsDeleteEnvStorageFail : FS.DeleteEnv :=
  { dbDeleteOk := true, storageRemoveOk := false }

/-- A sample public-URL derivation. -/
def urlOfSample : FS.Chars → FS.Chars := fun p => p

/-- A sample files-table row. -/
def fsFileRowSample : FS.FileRow :=
  { id := 4, name := ['a'], url := ['a'], project_id := ['p'], user_id := 1 }

/-- A state holding one blob and one files-table row. -/
def fsStateWithRow : FS.FilesState :=
  { storage := [['x']], filesTable := [fsFileRowSample] }

/-- A sample edit-form activity row whose rate input holds NaN. -/
def epFormRowSample : EP.ActivityFormRow :=
  { idField := some 1, name := "Dig", quantity := some 2, unit := "m",
    rate := none }

/-- A sample edit form with one activity row. -/
def epFormSample : EP.EditFormData :=
  { name := "Alpha2", startDate := "a", endDate := "b", vendor := "V",
    description := "d", status := "completed", completion_percentage := 50,
    activities := [epFormRowSample] }

/-- The stored project row the sample edits. -/
def epProjSample : EP.ProjectRow :=
  { id := 3, name := "Alpha", start_date := "", end_date := "", vendor := "",
    description := "", status := "ongoing", completion_percentage := 0,
    user_id := 1 }

/-- A pre-existing activity row of that project. -/
def epActSample : EP.ActivityRow :=
  { id := 0, project_id := 3, name := "Old", quantity := 1, unit := "u",
    rate := 1 }

/-- A database holding the sample project with one activity. -/
def epDbSample : EP.DB :=
  { projects := [epProjSample], activities := [epActSample],
    nextActivityId := 1 }

/-- An edit run in which the re-insert fails after the delete succeeded. -/
def epEnvInsFail : EP.EditEnv :=
  { updateOk := true, deleteOk := true, insertOk := false }

/-- An edit run in which every step succeeds. -/
def epEnvOk : EP.EditEnv :=
  { updateOk := true, deleteOk := true, insertOk := true }

/-! ## Theorems: routing guard -/

/-- C3 (counterexample): with an authenticated session, a request for the
login view renders the login view itself; it is not mapped to a redirect
to the dashboard view, contrary to the claimed gate behaviour. -/
theorem authenticated_login_not_redirected :
    resolveRoute (.authenticated ⟨1, "admin", true⟩) .login = .page .login ∧
    resolveRoute (.authenticated ⟨1, "admin", true⟩) .login ≠
      .redirect .dashboard := by
  exact ⟨rfl, by decide⟩

/-- C3 (amended): whenever the gate state is unauthenticated, every
request for a protected view redirects to the login view; a request for
the login view renders the login view in every state, so in particular an
authenticated session is not redirected away from it. -/
theorem routing_gate_redirects (r : Route) (s : AuthState)
    (h : isProtected r = true) :
    resolveRoute .unauthenticated r = .redirect .login ∧
    resolveRoute s .login = .page .login := by
  constructor
  · cases r <;> first | rfl | (simp [isProtected] at h)
  · cases s <;> rfl

/-- C3 witness: the amended statement evaluated at the reports view and a
concrete authenticated session. -/
theorem routing_gate_redirects_witness :
    isProtected .reports = true ∧
    resolveRoute .unauthenticated .reports = .redirect .login ∧
    resolveRoute (.authenticated ⟨2, "employee", true⟩) .login =
      .page .login := by
  refine ⟨by decide, ?_, ?_⟩
  · exact (routing_gate_redirects .reports (.authenticated ⟨2, "employee", true⟩)
      (by decide)).1
  · exact (routing_gate_redirects .reports (.authenticated ⟨2, "employee", true⟩)
      (by decide)).2

/-- C4: the admit/redirect decision of the gate does not depend on the
approved flag: two authenticated sessions differing only there resolve
every request identically, and a user whose approved flag is false still
passes the gate to every protected view. -/
theorem gate_independent_of_approved (u : AppUser) (b : Bool) (r : Route) :
    resolveRoute (.authenticated u) r =
      resolveRoute (.authenticated { u with approved := b }) r ∧
    (isProtected r = true → u.approved = false →
      resolveRoute (.authenticated u) r = .page r) := by
  refine ⟨by cases r <;> rfl, fun h _ => ?_⟩
  cases r <;> first | rfl | (simp [isProtected] at h)

/-- C4 witness: an unapproved vendor user reaches the dashboard view, and
flipping the approved flag leaves the resolution unchanged. -/
theorem gate_independent_of_approved_witness :
    isProtected .dashboard = true ∧
    (⟨5, "vendor", false⟩ : AppUser).approved = false ∧
    resolveRoute (.authenticated ⟨5, "vendor", false⟩) .dashboard =
      .page .dashboard := by
  refine ⟨by decide, by decide, ?_⟩
  exact (gate_independent_of_approved ⟨5, "vendor", false⟩ true .dashboard).2
    (by decide) (by decide)

/-! ## Theorems: CSV import -/

/-- C5: a CSV import whose parse produced errors aborts with a single
aggregate failure and leaves the in-form activity list unchanged; a
successful parse replaces the whole list by exactly the rows mapped from
the CSV, independent of the rows previously in the form. -/
theorem csv_import_aborts_or_replaces (pf : String → Option Rat)
    (results : ParseResults) (current other : List ActivityForm) :
    (results.errors ≠ [] →
      handleCsvUpload pf results current = ⟨current, true⟩) ∧
    (results.errors = [] →
      handleCsvUpload pf results current =
        ⟨csvToActivities pf results.data, false⟩ ∧
      (handleCsvUpload pf results current).activities =
        (handleCsvUpload pf results other).activities) := by
  constructor
  · intro h
    simp [handleCsvUpload, List.length_pos.mpr h]
  · intro h
    simp [handleCsvUpload, h]

/-- C5 witness: the aborting and replacing behaviours evaluated on the
sample parse results over a nonempty in-form list. -/
theorem csv_import_aborts_or_replaces_witness :
    parseResultsErr.errors ≠ [] ∧
    handleCsvUpload pfSample parseResultsErr formListSample =
      ⟨formListSample, true⟩ ∧
    parseResultsOk.errors = [] ∧
    handleCsvUpload pfSample parseResultsOk formListSample =
      ⟨csvToActivities pfSample parseResultsOk.data, false⟩ := by
  refine ⟨by decide, ?_, by decide, ?_⟩
  · exact (csv_import_aborts_or_replaces pfSample parseResultsErr
      formListSample []).1 (by decide)
  · exact ((csv_import_aborts_or_replaces pfSample parseResultsOk
      formListSample []).2 (by decide)).1

/-- C6: every parsed row whose mapped activity name is empty is excluded
from the import result, every row with a nonempty mapped name is
retained, the resulting length counts exactly the retained rows, and the
quantity and rate of every row fall back to 0 when the parseFloat
coercion fails. -/
theorem csv_rows_filtered_and_coerced (pf : String → Option Rat)
    (rows : List CsvRow) :
    (∀ a ∈ csvToActivities pf rows, a.name ≠ "") ∧
    (∀ r ∈ rows, (mapCsvRow pf r).name ≠ "" →
      mapCsvRow pf r ∈ csvToActivities pf rows) ∧
    (csvToActivities pf rows).length =
      (rows.filter (fun r => (mapCsvRow pf r).name != "")).length ∧
    (∀ r ∈ rows, r.quantity.bind pf = none → (mapCsvRow pf r).quantity = 0) ∧
    (∀ r ∈ rows, r.rate.bind pf = none → (mapCsvRow pf r).rate = 0) := by
  refine ⟨?_, ?_, ?_, ?_, ?_⟩
  · intro a ha
    simp [csvToActivities, List.mem_filter] at ha
    exact ha.2
  · intro r hr hname
    simp [csvToActivities, List.mem_filter]
    exact ⟨⟨r, hr, rfl⟩, hname⟩
  · simp only [csvToActivities, List.filter_map, List.length_map]
    rfl
  · intro r _ hq
    simp [mapCsvRow, hq]
  · intro r _ hq
    simp [mapCsvRow, hq]

/-- C6 witness: on the sample rows the empty-name row is dropped, the
named rows are kept, and the unparsable quantity cell maps to 0. -/
theorem csv_rows_filtered_and_coerced_witness :
    (mapCsvRow pfSample csvRowGood).name ≠ "" ∧
    mapCsvRow pfSample csvRowGood ∈ csvToActivities pfSample csvRowsSample ∧
    csvRowBadNum ∈ csvRowsSample ∧
    csvRowBadNum.quantity.bind pfSample = none ∧
    (mapCsvRow pfSample csvRowBadNum).quantity = 0 := by
  refine ⟨by decide, ?_, by decide, by decide, ?_⟩
  · exact (csv_rows_filtered_and_coerced pfSample csvRowsSample).2.1
      csvRowGood (by decide) (by decide)
  · exact (csv_rows_filtered_and_coerced pfSample csvRowsSample).2.2.2.1
      csvRowBadNum (by decide) (by decide)

/-! ## Theorems: create-project sequence -/

/-- C1: when the activity insert fails after the project row was
inserted, the compensating delete removes the rows with the new project
id, so no project row with that id exists after the failed submission,
and the failure is surfaced. -/
theorem create_failure_removes_project (env : NP.CreateEnv) (db : NP.DB)
    (v : NP.FormValues) (userId : Nat)
    (hp : env.projectInsertOk = true) (ha : env.activityInsertOk = false)
    (hn : v.activities ≠ []) :
    (∀ p ∈ (NP.onSubmitCreate env db v userId).1.projects,
      p.id ≠ env.newProjectId) ∧
    (NP.onSubmitCreate env db v userId).2 =
      .error "activities insert failed" := by
  have hlen : 0 < v.activities.length := List.length_pos.mpr hn
  constructor
  · intro p hmem
    simp [NP.onSubmitCreate, hp, ha, hlen, List.mem_filter] at hmem
    rcases hmem with h | h <;> exact h.2
  · simp [NP.onSubmitCreate, hp, ha, hlen]

/-- C1 witness: the failing sample run leaves no project row with the
generated id and surfaces the activity-insert error. -/
theorem create_failure_removes_project_witness :
    npEnvFail.projectInsertOk = true ∧ npEnvFail.activityInsertOk = false ∧
    npFormSample.activities ≠ [] ∧
    (∀ p ∈ (NP.onSubmitCreate npEnvFail npDbSample npFormSample 9).1.projects,
      p.id ≠ npEnvFail.newProjectId) ∧
    (NP.onSubmitCreate npEnvFail npDbSample npFormSample 9).2 =
      .error "activities insert failed" := by
  refine ⟨by decide, by decide, by decide, ?_, ?_⟩
  · exact (create_failure_removes_project npEnvFail npDbSample npFormSample 9
      (by decide) (by decide) (by decide)).1
  · exact (create_failure_removes_project npEnvFail npDbSample npFormSample 9
      (by decide) (by decide) (by decide)).2

/-- C2: whenever the create-project sequence reports success, exactly one
project row was inserted (the mapped form payload under the returned id)
and exactly as many activity rows as the form holds were inserted, all
referencing that id. -/
theorem create_success_inserts_counts (env : NP.CreateEnv) (db : NP.DB)
    (v : NP.FormValues) (userId pid : Nat)
    (hs : (NP.onSubmitCreate env db v userId).2 = .ok pid) :
    (NP.onSubmitCreate env db v userId).1.projects =
      db.projects ++ [NP.mkProjectRow pid v userId] ∧
    ∃ ins,
      (NP.onSubmitCreate env db v userId).1.activities =
        db.activities ++ ins ∧
      ins.length = v.activities.length ∧
      ∀ a ∈ ins, a.project_id = pid := by
  by_cases hp : env.projectInsertOk
  · by_cases hl : 0 < v.activities.length
    · by_cases ha : env.activityInsertOk
      · have hid : env.newProjectId = pid := by
          simpa [NP.onSubmitCreate, hp, hl, ha] using hs
        subst hid
        refine ⟨by simp [NP.onSubmitCreate, hp, hl, ha],
          v.activities.map (NP.mkActivityRow env.newProjectId),
          by simp [NP.onSubmitCreate, hp, hl, ha], by simp, ?_⟩
        intro a hmem
        rcases List.mem_map.1 hmem with ⟨x, _, rfl⟩
        rfl
      · exact absurd hs (by simp [NP.onSubmitCreate, hp, hl, ha])
    · have hid : env.newProjectId = pid := by
        simpa [NP.onSubmitCreate, hp, hl] using hs
      subst hid
      have hnil : v.activities = [] :=
        List.length_eq_zero.1 (Nat.eq_zero_of_not_pos hl)
      refine ⟨by simp [NP.onSubmitCreate, hp, hl], [],
        by simp [NP.onSubmitCreate, hp, hl], by simp [hnil], by simp⟩
  · exact absurd hs (by simp [NP.onSubmitCreate, hp])

/-- C2 witness: the successful sample run appends one project row and one
activity row referencing the generated id. -/
theorem create_success_inserts_counts_witness :
    (NP.onSubmitCreate npEnvOk npDbSample npFormSample 9).2 = .ok 7 ∧
    (NP.onSubmitCreate npEnvOk npDbSample npFormSample 9).1.projects =
      npDbSample.projects ++ [NP.mkProjectRow 7 npFormSample 9] ∧
    ∃ ins,
      (NP.onSubmitCreate npEnvOk npDbSample npFormSample 9).1.activities =
        npDbSample.activities ++ ins ∧
      ins.length = npFormSample.activities.length ∧
      ∀ a ∈ ins, a.project_id = 7 := by
  refine ⟨by decide, ?_⟩
  exact create_success_inserts_counts npEnvOk npDbSample npFormSample 9 7
    (by decide)

/-! ## Theorems: file upload and deletion -/

/-- C7: when the metadata-row insert fails after the blob was uploaded,
the blob is removed from storage at the very path under which it was
uploaded, and the failure is surfaced as an error. -/
theorem upload_failure_removes_blob (publicUrlOf : FS.Chars → FS.Chars)
    (env : FS.UploadEnv) (st : FS.FilesState)
    (projectId name : FS.Chars) (userId : Nat)
    (hu : env.uploadOk = true) (hi : env.insertOk = false) :
    FS.uploadPath projectId env.now name ∉
      (FS.handleFileUpload publicUrlOf env st projectId name userId).1.storage ∧
    (FS.handleFileUpload publicUrlOf env st projectId name userId).2 =
      .error "files insert failed" := by
  constructor
  · intro hmem
    simp [FS.handleFileUpload, hu, hi, List.mem_filter] at hmem
  · simp [FS.handleFileUpload, hu, hi]

/-- C7 witness: the failing sample upload leaves the uploaded path out of
storage and surfaces the insert error. -/
theorem upload_failure_removes_blob_witness :
    fsUploadEnvFail.uploadOk = true ∧ fsUploadEnvFail.insertOk = false ∧
    FS.uploadPath ['p'] fsUploadEnvFail.now ['a'] ∉
      (FS.handleFileUpload urlOfSample fsUploadEnvFail fsStateSample
        ['p'] ['a'] 1).1.storage ∧
    (FS.handleFileUpload urlOfSample fsUploadEnvFail fsStateSample
      ['p'] ['a'] 1).2 = .error "files insert failed" := by
  refine ⟨by decide, by decide, ?_, ?_⟩
  · exact (upload_failure_removes_blob urlOfSample fsUploadEnvFail
      fsStateSample ['p'] ['a'] 1 (by decide) (by decide)).1
  · exact (upload_failure_removes_blob urlOfSample fsUploadEnvFail
      fsStateSample ['p'] ['a'] 1 (by decide) (by decide)).2

/-- C8: file deletion deletes the metadata row first and only then
attempts the blob removal; when the removal fails, the metadata delete is
not rolled back, the storage failure is logged and not surfaced, storage
is untouched, and the operation still completes as a success.  When the
metadata delete itself fails, the blob removal is never attempted. -/
theorem delete_file_tolerates_storage_failure (env : FS.DeleteEnv)
    (st : FS.FilesState) (fileId : Nat) (path : FS.Chars)
    (hdb : env.dbDeleteOk = true) (hsr : env.storageRemoveOk = false) :
    (FS.handleDeleteFile env st fileId path).result = .ok () ∧
    (FS.handleDeleteFile env st fileId path).state.filesTable =
      st.filesTable.filter (fun f => f.id != fileId) ∧
    (FS.handleDeleteFile env st fileId path).state.storage = st.storage ∧
    (FS.handleDeleteFile env st fileId path).attemptedRemove = true ∧
    (FS.handleDeleteFile env st fileId path).loggedStorageError = true ∧
    (FS.handleDeleteFile { dbDeleteOk := false, storageRemoveOk := false }
      st fileId path).attemptedRemove = false := by
  simp [FS.handleDeleteFile, hdb, hsr]

/-- C8 witness: the sample deletion with a failing blob removal succeeds,
drops the metadata row, and leaves storage as it was. -/
theorem delete_file_tolerates_storage_failure_witness :
    fsDeleteEnvStorageFail.dbDeleteOk = true ∧
    fsDeleteEnvStorageFail.storageRemoveOk = false ∧
    (FS.handleDeleteFile fsDeleteEnvStorageFail fsStateWithRow 4
      ['x']).result = .ok () ∧
    (FS.handleDeleteFile fsDeleteEnvStorageFail fsStateWithRow 4
      ['x']).state.filesTable = [] ∧
    (FS.handleDeleteFile fsDeleteEnvStorageFail fsStateWithRow 4
      ['x']).state.storage = fsStateWithRow.storage := by
  have h := delete_file_tolerates_storage_failure fsDeleteEnvStorageFail
    fsStateWithRow 4 ['x'] (by decide) (by decide)
  refine ⟨by decide, by decide, h.1, ?_, h.2.2.1⟩
  rw [h.2.1]
  decide

/-- C9: the storage path handed to blob removal at deletion is
reconstructed from the bucket name, the project id and the stored file
name, and therefore never equals the path under which the blob was
uploaded, whose file segment is prefixed by the digits of a timestamp. -/
theorem delete_path_misses_upload_path (projectId name now : FS.Chars)
    (hd : ∀ c ∈ now, c.isDigit = true) :
    FS.deletePathGuess projectId name ≠ FS.uploadPath projectId now name := by
  intro h
  have hnow : now.count 'p' = 0 := by
    rw [List.count_eq_zero]
    intro hmem
    have hdig := hd _ hmem
    simp at hdig
  have hlit : (("project-files/").toList).count 'p' = 1 := by decide
  have hc := congrArg (fun l => l.count 'p') h
  simp [FS.deletePathGuess, FS.uploadPath, List.count_append, hnow, hlit]
    at hc

/-- C9 witness: the reconstructed deletion path misses the upload path on
a concrete project id, timestamp and file name. -/
theorem delete_path_misses_upload_path_witness :
    (∀ c ∈ (['1', '2', '3'] : FS.Chars), c.isDigit = true) ∧
    FS.deletePathGuess ['p'] ['a'] ≠ FS.uploadPath ['p'] ['1', '2', '3'] ['a'] :=
  ⟨by decide, delete_path_misses_upload_path ['p'] ['a'] ['1', '2', '3']
    (by decide)⟩

/-! ## Theorems: edit-project sequence -/

/-- Helper: the bulk-inserted rows tag every row with the project id and
give it a generated id at least the base counter, and there are as many
of them as form rows. -/
theorem assignIds_spec (pid : Nat) (l : List EP.ActivityFormRow) :
    ∀ base, (EP.assignIds base pid l).length = l.length ∧
      ∀ a ∈ EP.assignIds base pid l, a.project_id = pid ∧ base ≤ a.id := by
  induction l with
  | nil => intro base; simp [EP.assignIds]
  | cons x xs ih =>
    intro base
    refine ⟨by simp [EP.assignIds, (ih (base + 1)).1], ?_⟩
    intro a ha
    rcases List.mem_cons.1 (by simpa [EP.assignIds] using ha) with h | h
    · subst h
      exact ⟨rfl, Nat.le_refl _⟩
    · have := (ih (base + 1)).2 a h
      exact ⟨this.1, Nat.le_of_succ_le this.2⟩

/-- C10: saving an edited project deletes every activity row of the
project and then re-inserts the form rows with freshly generated ids; in
a run where the re-insert fails after the delete succeeded, the original
rows are not restored — the project is left with no activity rows while
its project row keeps the updated fields. -/
theorem edit_submit_delete_reinsert (env : EP.EditEnv) (db : EP.DB)
    (pid : Nat) (v : EP.EditFormData)
    (hu : env.updateOk = true) (hd : env.deleteOk = true) :
    (env.insertOk = false → v.activities ≠ [] →
      (EP.onSubmitEdit env db pid v).2 = .error "activities insert failed" ∧
      (EP.onSubmitEdit env db pid v).1.activities.filter
        (fun a => a.project_id == pid) = [] ∧
      (EP.onSubmitEdit env db pid v).1.projects =
        db.projects.map (fun p => if p.id = pid then EP.applyUpdate v p else p)) ∧
    (env.insertOk = true →
      (EP.onSubmitEdit env db pid v).1.activities =
        db.activities.filter (fun a => a.project_id != pid) ++
          EP.assignIds db.nextActivityId pid v.activities ∧
      ∀ a ∈ EP.assignIds db.nextActivityId pid v.activities,
        a.project_id = pid ∧
        ∀ b ∈ db.activities, b.id < db.nextActivityId → a.id ≠ b.id) := by
  constructor
  · intro hi hn
    have hlen : 0 < v.activities.length := List.length_pos.mpr hn
    refine ⟨by simp [EP.onSubmitEdit, hu, hd, hi, hlen], ?_,
      by simp [EP.onSubmitEdit, hu, hd, hi, hlen]⟩
    have hst : (EP.onSubmitEdit env db pid v).1.activities =
        db.activities.filter (fun a => a.project_id != pid) := by
      simp [EP.onSubmitEdit, hu, hd, hi, hlen]
    rw [hst, List.filter_filter]
    apply List.filter_eq_nil_iff.2
    intro a _
    simp
  · intro hi
    have hmem := (assignIds_spec pid v.activities db.nextActivityId).2
    refine ⟨?_, fun a ha => ⟨(hmem a ha).1, fun b _ hb => ?_⟩⟩
    · by_cases hl : 0 < v.activities.length
      · simp [EP.onSubmitEdit, hu, hd, hi, hl]
      · have hnil : v.activities = [] :=
          List.length_eq_zero.1 (Nat.eq_zero_of_not_pos hl)
        simp [EP.onSubmitEdit, hu, hd, hi, hnil, EP.assignIds]
    · have := (hmem a ha).2
      omega

/-- C10 witness: on the sample database the failing re-insert leaves the
project with no activity rows and the updated project row, while the
fully successful run re-inserts the form row under the fresh id. -/
theorem edit_submit_delete_reinsert_witness :
    epEnvInsFail.insertOk = false ∧ epFormSample.activities ≠ [] ∧
    (EP.onSubmitEdit epEnvInsFail epDbSample 3 epFormSample).2 =
      .error "activities insert failed" ∧
    (EP.onSubmitEdit epEnvInsFail epDbSample 3 epFormSample).1.activities.filter
      (fun a => a.project_id == 3) = [] ∧
    (EP.onSubmitEdit epEnvInsFail epDbSample 3 epFormSample).1.projects =
      [EP.applyUpdate epFormSample epProjSample] ∧
    (EP.onSubmitEdit epEnvOk epDbSample 3 epFormSample).1.activities =
      EP.assignIds 1 3 epFormSample.activities := by
  have hfail := (edit_submit_delete_reinsert epEnvInsFail epDbSample 3
    epFormSample (by decide) (by decide)).1 (by decide) (by decide)
  have hok := (edit_submit_delete_reinsert epEnvOk epDbSample 3
    epFormSample (by decide) (by decide)).2 (by decide)
  refine ⟨by decide, by decide, hfail.1, hfail.2.1, ?_, ?_⟩
  · rw [hfail.2.2]
    decide
  · rw [hok.1]
    decide

end PMApp
